import Mathlib

/-!
Verification development for a quadcopter rigid-body physics simulator
(`physics_sim.py`).  The simulator state is advanced by `next_timestep`
(the public `step`), and re-initialised by `reset`.  Numeric values are
modelled as real numbers; numpy arrays of fixed size 3/4/6 as functions
out of `Fin n`; the rotor-speed command, whose length the code never
checks, as a `List ℝ`.
-/

noncomputable section

open Real

/-- Shorthand `C` for cosine, as in the source. -/
def C (x : ℝ) : ℝ := Real.cos x

/-- Shorthand `S` for sine, as in the source. -/
def S (x : ℝ) : ℝ := Real.sin x

/-- Rotation matrix from the earth frame to the body frame (Z-Y-X Euler). -/
def earth_to_body_frame (ii jj kk : ℝ) : Fin 3 → Fin 3 → ℝ :=
  ![![C kk * C jj, C kk * S jj * S ii - S kk * C ii, C kk * S jj * C ii + S kk * S ii],
    ![S kk * C jj, S kk * S jj * S ii + C kk * C ii, S kk * S jj * C ii - C kk * S ii],
    ![-S jj, C jj * S ii, C jj * C ii]]

/-- Rotation matrix from the body frame to the earth frame: the transpose. -/
def body_to_earth_frame (ii jj kk : ℝ) : Fin 3 → Fin 3 → ℝ :=
  fun i j => earth_to_body_frame ii jj kk j i

/-- Matrix-vector product for the 3x3 matrices used by the frame transforms. -/
def mulVec3 (M : Fin 3 → Fin 3 → ℝ) (x : Fin 3 → ℝ) : Fin 3 → ℝ :=
  fun i => ∑ j : Fin 3, M i j * x j

/-- Gravitational acceleration constant of the simulator. -/
def gravity : ℝ := -9.81

/-- Air density constant of the simulator. -/
def rho : ℝ := 1.2

/-- Mass of the quadcopter. -/
def mass : ℝ := 0.958

/-- Integration time step. -/
def dt : ℝ := 1 / 50

/-- Coefficient of drag. -/
def C_d : ℝ := 0.3

/-- Length from the centre of gravity to each rotor. -/
def l_to_rotor : ℝ := 0.4

/-- Thrust-to-torque ratio. -/
def T_q : ℝ := 0.1

/-- Propeller diameter. -/
def propeller_size : ℝ := 0.1

/-- The x, y, z dimensions of the quadcopter: width, length, height. -/
def dims : Fin 3 → ℝ := ![0.51, 0.51, 0.235]

/-- Cross-sectional areas per axis: length*height, width*height, width*length. -/
def areas : Fin 3 → ℝ := ![0.51 * 0.235, 0.51 * 0.235, 0.51 * 0.51]

/-- Per-axis moments of inertia derived from mass and dimensions. -/
def moments_of_inertia : Fin 3 → ℝ :=
  ![1 / 12 * mass * (0.235 ^ 2 + 0.51 ^ 2),
    1 / 12 * mass * (0.235 ^ 2 + 0.51 ^ 2),
    1 / 12 * mass * (0.51 ^ 2 + 0.51 ^ 2)]

/-- Side length of the cubic flight volume. -/
def env_bounds : ℝ := 300

/-- Lower bounds of the flight volume per axis. -/
def lower_bounds : Fin 3 → ℝ := ![-(env_bounds / 2), -(env_bounds / 2), 0]

/-- Upper bounds of the flight volume per axis. -/
def upper_bounds : Fin 3 → ℝ := ![env_bounds / 2, env_bounds / 2, env_bounds]

/-- Initial value of the `rotor_speeds` field, embedding the numpy expression
`np.mean([upper_bounds, lower_bounds], axis=1)`: the two 3-vectors are stacked
into a 2x3 array and `axis=1` averages each row, so the result is the
2-element array of the row means. -/
def init_rotor_speeds : List ℝ :=
  [(upper_bounds 0 + upper_bounds 1 + upper_bounds 2) / 3,
   (lower_bounds 0 + lower_bounds 1 + lower_bounds 2) / 3]

/-- Constructor arguments of `PhysicsSim`: initial pose (position and Euler
angles), initial linear and angular velocities, and the episode runtime. -/
structure Config where
  init_pose : Fin 6 → ℝ
  init_velocities : Fin 3 → ℝ
  init_angle_velocities : Fin 3 → ℝ
  runtime : ℝ

/-- The constructor defaults: pose `[0,0,10,0,0,0]`, zero velocities,
runtime 5 seconds. -/
def default_config : Config :=
  { init_pose := ![0, 0, 10, 0, 0, 0]
    init_velocities := ![0, 0, 0]
    init_angle_velocities := ![0, 0, 0]
    runtime := 5 }

/-- The mutable state of a `PhysicsSim` instance: exactly the fields assigned
by `reset` and `next_timestep`. -/
@[ext]
structure State where
  time : ℝ
  rotor_speeds : List ℝ
  pose : Fin 6 → ℝ
  v : Fin 3 → ℝ
  angular_v : Fin 3 → ℝ
  linear_accel : Fin 3 → ℝ
  angular_accels : Fin 3 → ℝ
  prop_wind_speed : Fin 4 → ℝ
  done : Bool

/-- The first three components of the pose: the position. -/
def pos3 (p : Fin 6 → ℝ) (i : Fin 3) : ℝ := p (Fin.castAdd 3 i)

/-- The last three components of the pose: the orientation angles. -/
def ang3 (p : Fin 6 → ℝ) (i : Fin 3) : ℝ := p (Fin.natAdd 3 i)

/-- World-frame velocity rotated into the body frame at the current pose. -/
def find_body_velocity (s : State) : Fin 3 → ℝ :=
  mulVec3 (earth_to_body_frame (s.pose 3) (s.pose 4) (s.pose 5)) s.v

/-- Quadratic drag per body axis, signed opposite the body velocity. -/
def get_linear_drag (s : State) : Fin 3 → ℝ := fun i =>
  -Real.sign (find_body_velocity s i) *
    (0.5 * rho * find_body_velocity s i ^ 2 * areas i * C_d)

/-- World-frame net force: thrust and drag rotated from the body frame,
plus gravity along -z. -/
def get_linear_forces (s : State) (thrusts : Fin 4 → ℝ) : Fin 3 → ℝ := fun i =>
  mulVec3 (body_to_earth_frame (s.pose 3) (s.pose 4) (s.pose 5))
      (fun j => (![0, 0, ∑ k : Fin 4, thrusts k] : Fin 3 → ℝ) j + get_linear_drag s j) i
    + mass * gravity * (![0, 0, 1] : Fin 3 → ℝ) i

/-- Body moments: rotor-layout thrust moments minus quadratic angular drag. -/
def get_moments (s : State) (thrusts : Fin 4 → ℝ) : Fin 3 → ℝ := fun i =>
  (![(thrusts 0 + thrusts 3 - thrusts 1 - thrusts 2) * l_to_rotor,
     (thrusts 2 + thrusts 3 - thrusts 0 - thrusts 1) * l_to_rotor,
     (thrusts 0 + thrusts 2 - thrusts 1 - thrusts 3) * T_q] : Fin 3 → ℝ) i
  - C_d * 0.5 * rho * s.angular_v i * |s.angular_v i| * areas i * dims i * dims i

/-- Induced axial airflow at each of the four propellers. -/
def calc_prop_wind_speed (s : State) : Fin 4 → ℝ :=
  let body_velocity := find_body_velocity s 2
  let phi_vel := s.angular_v 0 * l_to_rotor
  let theta_vel := s.angular_v 1 * l_to_rotor
  ![body_velocity + phi_vel - theta_vel,
    body_velocity - phi_vel - theta_vel,
    body_velocity - phi_vel + theta_vel,
    body_velocity + phi_vel + theta_vel]

/-- Advance ratio of a propeller: `V / (n * D)` when `|n| > 1`, else `0`. -/
def J_of (V n : ℝ) : ℝ := if |n| > 1 then V / (n * propeller_size) else 0

/-- Empirical thrust coefficient as a quadratic in the advance ratio. -/
def C_T_of (J : ℝ) : ℝ := 0.12 - 0.07 * J - 0.1 * J ^ 2

/-- Net thrust of each rotor from its wind speed and commanded speed. -/
def get_propeller_thrust (s : State) (u : Fin 4 → ℝ) : Fin 4 → ℝ := fun i =>
  C_T_of (J_of (s.prop_wind_speed i) (u i)) * rho * u i ^ 2 * propeller_size ^ 4

/-- Floored real modulus, the semantics of numpy `%` on floats: the result
lies in `[0, y)` for positive `y`. -/
def pymod (x y : ℝ) : ℝ := x - y * ⌊x / y⌋

/-- Per-axis boundary handling of `next_timestep`: clamp and report whether
a bound was hit (which drives `done`). -/
def clamp_axis (x lo hi : ℝ) : ℝ × Bool :=
  if x ≤ lo then (lo, true) else if x > hi then (hi, true) else (x, false)

/-- The commanded rotor speeds as the 4-element list stored in the state. -/
def rotor_list (u : Fin 4 → ℝ) : List ℝ := [u 0, u 1, u 2, u 3]

/-- The state after the first two mutations of `next_timestep`: the raw
rotor-speed argument is stored and the propeller wind speeds recomputed. -/
def wind_updated (s : State) (u : List ℝ) : State :=
  { s with rotor_speeds := u, prop_wind_speed := calc_prop_wind_speed s }

/-- Linear acceleration computed by `next_timestep`: net force over mass,
evaluated on the pre-update kinematic state with refreshed wind speeds. -/
def step_accel (s : State) (u : Fin 4 → ℝ) : Fin 3 → ℝ :=
  let s1 := wind_updated s (rotor_list u)
  fun i => get_linear_forces s1 (get_propeller_thrust s1 u) i / mass

/-- Angular acceleration computed by `next_timestep`: moments over the
per-axis moments of inertia, on the pre-update kinematic state. -/
def step_angular_accel (s : State) (u : Fin 4 → ℝ) : Fin 3 → ℝ :=
  let s1 := wind_updated s (rotor_list u)
  fun i => get_moments s1 (get_propeller_thrust s1 u) i / moments_of_inertia i

/-- Position proposed by the integrator before boundary clamping. -/
def proposed_position (s : State) (u : Fin 4 → ℝ) : Fin 3 → ℝ := fun i =>
  pos3 s.pose i + s.v i * dt + 0.5 * step_accel s u i * dt * dt

/-- Orientation angles proposed by the integrator before wrapping. -/
def raw_angles (s : State) (u : Fin 4 → ℝ) : Fin 3 → ℝ := fun i =>
  ang3 s.pose i + s.angular_v i * dt + 0.5 * step_angular_accel s u i * dt * dt

/-- Orientation angles after the wrap `(angles + 2*pi) % (2*pi)`. -/
def new_angles (s : State) (u : Fin 4 → ℝ) : Fin 3 → ℝ := fun i =>
  pymod (raw_angles s u i + 2 * π) (2 * π)

/-- One call of `next_timestep` with a well-formed 4-element command: store
the command, refresh wind speeds, compute thrusts and accelerations, advance
position then velocity (and orientation then angular velocity), clamp the
position to the flight volume setting `done` on a hit, advance time and set
`done` once past the runtime.  The method returns the `done` field of the
result. -/
def next_timestep (cfg : Config) (s : State) (u : Fin 4 → ℝ) : State :=
  let cl : Fin 3 → ℝ × Bool := fun i =>
    clamp_axis (proposed_position s u i) (lower_bounds i) (upper_bounds i)
  let done1 : Bool := s.done || (cl 0).2 || (cl 1).2 || (cl 2).2
  let time' : ℝ := s.time + dt
  { time := time'
    rotor_speeds := rotor_list u
    pose := Fin.append (fun i => (cl i).1) (new_angles s u)
    v := fun i => s.v i + step_accel s u i * dt
    angular_v := fun i => s.angular_v i + step_angular_accel s u i * dt
    linear_accel := step_accel s u
    angular_accels := step_angular_accel s u
    prop_wind_speed := calc_prop_wind_speed s
    done := done1 || decide (time' > cfg.runtime) }

/-- One call of `next_timestep` with a rotor-speed list of arbitrary length,
with Python's semantics: the raw list is stored and the wind speeds refreshed
first; then indexing `rotor_speeds[0..3]` either succeeds (any length >= 4,
extra elements ignored) or raises `IndexError`, leaving the already-mutated
state behind, carried here by `Except.error`. -/
def next_timestep_list (cfg : Config) (s : State) (u : List ℝ) :
    Except State State :=
  if h : 4 ≤ u.length then
    Except.ok { next_timestep cfg s (fun i => u.get ⟨i.1, lt_of_lt_of_le i.2 h⟩) with
                  rotor_speeds := u }
  else
    Except.error (wind_updated s u)

/-- The `reset` method: every mutable field is overwritten from the
configuration; the wind speeds are then recomputed from the fresh state. -/
def reset (cfg : Config) : State :=
  let s0 : State :=
    { time := 0
      rotor_speeds := init_rotor_speeds
      pose := cfg.init_pose
      v := cfg.init_velocities
      angular_v := cfg.init_angle_velocities
      linear_accel := fun _ => 0
      angular_accels := fun _ => 0
      prop_wind_speed := fun _ => 0
      done := false }
  { s0 with prop_wind_speed := calc_prop_wind_speed s0 }

/-- The `reset` method viewed as a transition on the mutable state: it
assigns every field, so the prior state is irrelevant. -/
def reset_op (cfg : Config) (_s : State) : State := reset cfg

/-- Scenario configuration: constructor defaults except `runtime = 0.02`. -/
def scen_cfg : Config := { default_config with runtime := 0.02 }

/-- The all-zero rotor-speed command. -/
def u0 : Fin 4 → ℝ := fun _ => 0

/-- The state of the simulator object after a call, whether the call
returned normally or raised. -/
def post_state : Except State State → State
  | Except.ok s => s
  | Except.error s => s

/-- A configuration whose initial pose carries the orientation angle 7,
outside `[0, 2*pi)`. -/
def cfg_angle7 : Config := { default_config with init_pose := ![0, 0, 10, 7, 0, 0] }

lemma pymod_nonneg (x : ℝ) {y : ℝ} (hy : 0 < y) : 0 ≤ pymod x y := by
  have h1 : (⌊x / y⌋ : ℝ) * y ≤ x / y * y :=
    mul_le_mul_of_nonneg_right (Int.floor_le _) hy.le
  rw [div_mul_cancel₀ x hy.ne'] at h1
  rw [pymod]
  nlinarith [h1]

lemma pymod_lt (x : ℝ) {y : ℝ} (hy : 0 < y) : pymod x y < y := by
  have h1 : x / y * y < ((⌊x / y⌋ : ℝ) + 1) * y :=
    mul_lt_mul_of_pos_right (Int.lt_floor_add_one _) hy
  rw [div_mul_cancel₀ x hy.ne'] at h1
  rw [pymod]
  nlinarith [h1]

lemma lb_le_ub : ∀ i : Fin 3, lower_bounds i ≤ upper_bounds i := by
  intro i
  fin_cases i <;> norm_num [lower_bounds, upper_bounds, env_bounds]

lemma next_pose_eq (cfg : Config) (s : State) (u : Fin 4 → ℝ) :
    (next_timestep cfg s u).pose =
      Fin.append
        (fun i => (clamp_axis (proposed_position s u i) (lower_bounds i) (upper_bounds i)).1)
        (new_angles s u) := rfl

lemma next_pos3 (cfg : Config) (s : State) (u : Fin 4 → ℝ) (i : Fin 3) :
    pos3 (next_timestep cfg s u).pose i =
      (clamp_axis (proposed_position s u i) (lower_bounds i) (upper_bounds i)).1 := by
  rw [pos3, next_pose_eq, Fin.append_left]

lemma next_ang3 (cfg : Config) (s : State) (u : Fin 4 → ℝ) (i : Fin 3) :
    ang3 (next_timestep cfg s u).pose i = new_angles s u i := by
  rw [ang3, next_pose_eq, Fin.append_right]

lemma next_done_eq (cfg : Config) (s : State) (u : Fin 4 → ℝ) :
    (next_timestep cfg s u).done =
      ((s.done
        || (clamp_axis (proposed_position s u 0) (lower_bounds 0) (upper_bounds 0)).2
        || (clamp_axis (proposed_position s u 1) (lower_bounds 1) (upper_bounds 1)).2
        || (clamp_axis (proposed_position s u 2) (lower_bounds 2) (upper_bounds 2)).2)
        || decide (s.time + dt > cfg.runtime)) := rfl

lemma done_of_flag (cfg : Config) (s : State) (u : Fin 4 → ℝ) (i : Fin 3)
    (h : (clamp_axis (proposed_position s u i) (lower_bounds i) (upper_bounds i)).2 = true) :
    (next_timestep cfg s u).done = true := by
  rw [next_done_eq]
  fin_cases i <;> simp_all

lemma thrust_u0 (s : State) (k : Fin 4) : get_propeller_thrust s u0 k = 0 := by
  simp [get_propeller_thrust, u0]

lemma step_accel_reset_scen (i : Fin 3) :
    step_accel (reset scen_cfg) u0 i = ![(0 : ℝ), 0, -9.81] i := by
  have hv : (wind_updated (reset scen_cfg) (rotor_list u0)).v = ![(0 : ℝ), 0, 0] := rfl
  fin_cases i <;>
    norm_num [step_accel, get_linear_forces, get_linear_drag, find_body_velocity, hv, mulVec3,
      Fin.sum_univ_three, Fin.sum_univ_four, thrust_u0, Real.sign_zero, mass, gravity]

lemma proposed_position_s0_zero :
    proposed_position (reset scen_cfg) u0 0 = 0 := by
  have ha := step_accel_reset_scen 0
  simp only [Matrix.cons_val_zero] at ha
  have hp : pos3 (reset scen_cfg).pose 0 = 0 := rfl
  have hv : (reset scen_cfg).v 0 = 0 := rfl
  simp only [proposed_position, hp, hv, ha]
  ring

lemma proposed_position_s0_one :
    proposed_position (reset scen_cfg) u0 1 = 0 := by
  have ha := step_accel_reset_scen 1
  simp only [Matrix.cons_val_one, Matrix.head_cons] at ha
  have hp : pos3 (reset scen_cfg).pose 1 = 0 := rfl
  have hv : (reset scen_cfg).v 1 = 0 := rfl
  simp only [proposed_position, hp, hv, ha]
  ring

lemma proposed_position_s0_two :
    proposed_position (reset scen_cfg) u0 2 = 10 + 0.5 * (-9.81) * dt * dt := by
  have ha := step_accel_reset_scen 2
  simp only [Matrix.cons_val_two, Matrix.tail_cons, Matrix.head_cons] at ha
  have hp : pos3 (reset scen_cfg).pose 2 = 10 := rfl
  have hv : (reset scen_cfg).v 2 = 0 := rfl
  simp only [proposed_position, hp, hv, ha]
  ring

lemma clamp_flag_s0_zero :
    (clamp_axis (proposed_position (reset scen_cfg) u0 0)
      (lower_bounds 0) (upper_bounds 0)).2 = false := by
  rw [proposed_position_s0_zero, clamp_axis,
    if_neg (by norm_num [lower_bounds, env_bounds]),
    if_neg (by norm_num [upper_bounds, env_bounds])]

lemma clamp_flag_s0_one :
    (clamp_axis (proposed_position (reset scen_cfg) u0 1)
      (lower_bounds 1) (upper_bounds 1)).2 = false := by
  rw [proposed_position_s0_one, clamp_axis,
    if_neg (by norm_num [lower_bounds, env_bounds]),
    if_neg (by norm_num [upper_bounds, env_bounds])]

lemma clamp_flag_s0_two :
    (clamp_axis (proposed_position (reset scen_cfg) u0 2)
      (lower_bounds 2) (upper_bounds 2)).2 = false := by
  rw [proposed_position_s0_two, clamp_axis,
    if_neg (by norm_num [lower_bounds, env_bounds, dt]),
    if_neg (by norm_num [upper_bounds, env_bounds, dt])]

lemma step1_done : (next_timestep scen_cfg (reset scen_cfg) u0).done = false := by
  rw [next_done_eq, clamp_flag_s0_zero, clamp_flag_s0_one, clamp_flag_s0_two,
    decide_eq_false (show ¬ ((reset scen_cfg).time + dt > scen_cfg.runtime) by
      show ¬ ((0 : ℝ) + dt > 0.02)
      norm_num [dt])]
  rfl

lemma step2_done :
    (next_timestep scen_cfg (next_timestep scen_cfg (reset scen_cfg) u0) u0).done = true := by
  rw [next_done_eq,
    decide_eq_true (show (next_timestep scen_cfg (reset scen_cfg) u0).time + dt >
        scen_cfg.runtime by
      show (0 : ℝ) + dt + dt > 0.02
      norm_num [dt]),
    Bool.or_true]

/-- C2: `done` is monotonic within an episode: whenever `done` is true,
it remains true after any further `next_timestep` call; only `reset`
produces a state with `done = false`. -/
theorem c2_done_monotonic (cfg : Config) (s : State) (u : Fin 4 → ℝ)
    (h : s.done = true) : (next_timestep cfg s u).done = true := by
  rw [next_done_eq, h]
  simp

/-- Witness for C2 at a concrete terminal state and the zero command. -/
theorem c2_done_monotonic_witness :
    ({ reset default_config with done := true } : State).done = true ∧
    (next_timestep default_config { reset default_config with done := true } u0).done = true :=
  ⟨rfl, c2_done_monotonic default_config { reset default_config with done := true } u0 rfl⟩

/-- C6: `reset` always yields `time = 0`, `done = false`, and pose,
velocity and angular velocity equal to the configured initial values,
regardless of the prior state, and it is idempotent. -/
theorem c6_reset_restores_initial_state (cfg : Config) (s t : State) :
    (reset_op cfg s).time = 0 ∧
    (reset_op cfg s).done = false ∧
    (reset_op cfg s).pose = cfg.init_pose ∧
    (reset_op cfg s).v = cfg.init_velocities ∧
    (reset_op cfg s).angular_v = cfg.init_angle_velocities ∧
    reset_op cfg (reset_op cfg s) = reset_op cfg s ∧
    reset_op cfg s = reset_op cfg t :=
  ⟨rfl, rfl, rfl, rfl, rfl, rfl, rfl⟩

/-- C7: the advance ratio is `V / (n * D)` only under the guard `|n| > 1`
(where the divisor is provably nonzero) and `0` otherwise; the thrust
coefficient at `J = 0` is exactly `0.12`; each rotor's thrust is
`C_T * rho * n^2 * D^4`. -/
theorem c7_advance_ratio_guard (s : State) (u : Fin 4 → ℝ) (i : Fin 4) :
    (|u i| ≤ 1 → J_of (s.prop_wind_speed i) (u i) = 0) ∧
    (1 < |u i| →
      J_of (s.prop_wind_speed i) (u i) = s.prop_wind_speed i / (u i * propeller_size) ∧
      u i * propeller_size ≠ 0) ∧
    C_T_of 0 = 0.12 ∧
    get_propeller_thrust s u i =
      C_T_of (J_of (s.prop_wind_speed i) (u i)) * rho * u i ^ 2 * propeller_size ^ 4 := by
  refine ⟨fun h => ?_, fun h => ⟨?_, ?_⟩, by norm_num [C_T_of], rfl⟩
  · rw [J_of, if_neg (by simpa using h)]
  · rw [J_of, if_pos h]
  · refine mul_ne_zero (fun h0 => ?_) (by norm_num [propeller_size])
    rw [h0] at h
    simp at h
    linarith

/-- Witness for C7: both guard branches at concrete rotor speeds. -/
theorem c7_advance_ratio_guard_witness :
    J_of (({ reset default_config with prop_wind_speed := fun _ => 1 } : State).prop_wind_speed 0)
        ((fun _ => (0 : ℝ)) 0) = 0 ∧
    J_of (({ reset default_config with prop_wind_speed := fun _ => 1 } : State).prop_wind_speed 0)
        ((fun _ => (2 : ℝ)) 0) =
      ({ reset default_config with prop_wind_speed := fun _ => 1 } : State).prop_wind_speed 0 /
        ((fun _ => (2 : ℝ)) 0 * propeller_size) :=
  ⟨(c7_advance_ratio_guard { reset default_config with prop_wind_speed := fun _ => 1 }
      (fun _ => 0) 0).1 (by norm_num),
   ((c7_advance_ratio_guard { reset default_config with prop_wind_speed := fun _ => 1 }
      (fun _ => 2) 0).2.1 (by norm_num)).1⟩

/-- C9 evaluation: after construction or any `reset`, the `rotor_speeds`
field holds the 2-element array `[200, -100]`, not 4 values: the numpy
mean is taken over `axis=1` of the stacked 2x3 bounds array. -/
theorem c9_rotor_speeds_length_bug :
    (reset default_config).rotor_speeds.length = 2 ∧
    (reset default_config).rotor_speeds = [200, -100] ∧ (2 : ℕ) ≠ 4 := by
  refine ⟨rfl, ?_, by norm_num⟩
  show init_rotor_speeds = [200, -100]
  norm_num [init_rotor_speeds, upper_bounds, lower_bounds, env_bounds]

/-- C10: when `done` is already true, `next_timestep` still performs the
full physics update — the resulting state is exactly the update of the
same state with `done` cleared, with `done` forced back to true — and it
still overwrites the rotor speeds and wind speeds, advances time by `dt`,
integrates velocity and angular velocity, and returns true. -/
theorem c10_step_after_done_updates (cfg : Config) (s : State) (u : Fin 4 → ℝ)
    (h : s.done = true) :
    next_timestep cfg s u = { next_timestep cfg { s with done := false } u with done := true } ∧
    (next_timestep cfg s u).done = true ∧
    (next_timestep cfg s u).time = s.time + dt ∧
    (next_timestep cfg s u).rotor_speeds = rotor_list u ∧
    (next_timestep cfg s u).prop_wind_speed = calc_prop_wind_speed s ∧
    (next_timestep cfg s u).v = (fun i => s.v i + step_accel s u i * dt) ∧
    (next_timestep cfg s u).angular_v =
      (fun i => s.angular_v i + step_angular_accel s u i * dt) := by
  have hdone : (next_timestep cfg s u).done = true := by
    rw [next_done_eq, h]
    simp
  refine ⟨State.ext rfl rfl rfl rfl rfl rfl rfl rfl ?_, hdone, rfl, rfl, rfl, rfl, rfl⟩
  rw [hdone]

/-- Witness for C10 at a concrete terminal state and the zero command. -/
theorem c10_step_after_done_updates_witness :
    ({ reset scen_cfg with done := true } : State).done = true ∧
    (next_timestep scen_cfg { reset scen_cfg with done := true } u0).time =
      ({ reset scen_cfg with done := true } : State).time + dt :=
  ⟨rfl, (c10_step_after_done_updates scen_cfg { reset scen_cfg with done := true } u0 rfl).2.2.1⟩

/-- C1: per axis, a proposed coordinate at most the lower bound is stored
as exactly the lower bound with `done` set; one strictly above the upper
bound is stored as exactly the upper bound with `done` set; otherwise the
proposed value is kept; hence every stored position component lies within
the bounds after every step. -/
theorem c1_position_clamping (cfg : Config) (s : State) (u : Fin 4 → ℝ) (i : Fin 3) :
    (proposed_position s u i ≤ lower_bounds i →
      pos3 (next_timestep cfg s u).pose i = lower_bounds i ∧
      (next_timestep cfg s u).done = true) ∧
    (¬ proposed_position s u i ≤ lower_bounds i → proposed_position s u i > upper_bounds i →
      pos3 (next_timestep cfg s u).pose i = upper_bounds i ∧
      (next_timestep cfg s u).done = true) ∧
    (¬ proposed_position s u i ≤ lower_bounds i → ¬ proposed_position s u i > upper_bounds i →
      pos3 (next_timestep cfg s u).pose i = proposed_position s u i) ∧
    lower_bounds i ≤ pos3 (next_timestep cfg s u).pose i ∧
    pos3 (next_timestep cfg s u).pose i ≤ upper_bounds i := by
  by_cases h1 : proposed_position s u i ≤ lower_bounds i
  · refine ⟨fun _ => ⟨?_, done_of_flag cfg s u i ?_⟩,
      fun hc => (hc h1).elim, fun hc => (hc h1).elim, ?_, ?_⟩
    · simp [next_pos3, clamp_axis, h1]
    · simp [clamp_axis, h1]
    · simp [next_pos3, clamp_axis, h1]
    · simp [next_pos3, clamp_axis, h1, lb_le_ub i]
  · by_cases h2 : proposed_position s u i > upper_bounds i
    · refine ⟨fun hc => (h1 hc).elim, fun _ _ => ⟨?_, done_of_flag cfg s u i ?_⟩,
        fun _ hc => (hc h2).elim, ?_, ?_⟩
      · simp [next_pos3, clamp_axis, h1, h2]
      · simp [clamp_axis, h1, h2]
      · simp [next_pos3, clamp_axis, h1, h2, lb_le_ub i]
      · simp [next_pos3, clamp_axis, h1, h2]
    · refine ⟨fun hc => (h1 hc).elim, fun _ hc => (h2 hc).elim, fun _ _ => ?_, ?_, ?_⟩
      · simp [next_pos3, clamp_axis, h1, h2]
      · have := not_le.mp h1
        simp only [next_pos3, clamp_axis, if_neg h1, if_neg h2]
        linarith
      · have := not_lt.mp h2
        simp only [next_pos3, clamp_axis, if_neg h1, if_neg h2]
        linarith

/-- Witness for C1 on the in-range branch: from the default initial state
with the zero command the proposed altitude stays inside the bounds, so it
is stored unchanged. -/
theorem c1_position_clamping_witness :
    ¬ proposed_position (reset scen_cfg) u0 2 ≤ lower_bounds 2 ∧
    ¬ proposed_position (reset scen_cfg) u0 2 > upper_bounds 2 ∧
    pos3 (next_timestep scen_cfg (reset scen_cfg) u0).pose 2 =
      proposed_position (reset scen_cfg) u0 2 := by
  have hlo : ¬ proposed_position (reset scen_cfg) u0 2 ≤ lower_bounds 2 := by
    rw [proposed_position_s0_two]
    norm_num [lower_bounds, env_bounds, dt]
  have hhi : ¬ proposed_position (reset scen_cfg) u0 2 > upper_bounds 2 := by
    rw [proposed_position_s0_two]
    norm_num [upper_bounds, env_bounds, dt]
  exact ⟨hlo, hhi, (c1_position_clamping scen_cfg (reset scen_cfg) u0 2).2.2.1 hlo hhi⟩

/-- C5: every step advances `time` by exactly `dt`; once the advanced time
exceeds the runtime the step reports `done = true`; and in the concrete
scenario with `runtime = 0.02` and `dt = 1/50`, from the default initial
state under the zero command, `done` is false after exactly one step and
true after two. -/
theorem c5_time_advance_and_runtime :
    (∀ (cfg : Config) (s : State) (u : Fin 4 → ℝ),
      (next_timestep cfg s u).time = s.time + dt) ∧
    (∀ (cfg : Config) (s : State) (u : Fin 4 → ℝ),
      s.time + dt > cfg.runtime → (next_timestep cfg s u).done = true) ∧
    scen_cfg.runtime = 0.02 ∧ dt = 1 / 50 ∧
    (next_timestep scen_cfg (reset scen_cfg) u0).done = false ∧
    (next_timestep scen_cfg (next_timestep scen_cfg (reset scen_cfg) u0) u0).done = true := by
  refine ⟨fun _ _ _ => rfl, fun cfg s u h => ?_, rfl, rfl, step1_done, step2_done⟩
  rw [next_done_eq, decide_eq_true h, Bool.or_true]

/-- Witness for C5 at a concrete state whose advanced time exceeds the
runtime. -/
theorem c5_time_advance_and_runtime_witness :
    ({ reset scen_cfg with time := 5 } : State).time + dt > scen_cfg.runtime ∧
    (next_timestep scen_cfg { reset scen_cfg with time := 5 } u0).done = true := by
  have h : ({ reset scen_cfg with time := 5 } : State).time + dt > scen_cfg.runtime := by
    show (5 : ℝ) + dt > 0.02
    norm_num [dt]
  exact ⟨h, c5_time_advance_and_runtime.2.1 scen_cfg { reset scen_cfg with time := 5 } u0 h⟩

/-- C3: the integrator computes the proposed position from the pre-update
velocity and the newly computed acceleration, and only afterwards updates
the velocity with that same acceleration; the orientation and angular
velocity are updated analogously. -/
theorem c3_integration_order (cfg : Config) (s : State) (u : Fin 4 → ℝ) (i : Fin 3) :
    proposed_position s u i =
      pos3 s.pose i + s.v i * dt + 0.5 * step_accel s u i * dt * dt ∧
    (next_timestep cfg s u).v i = s.v i + step_accel s u i * dt ∧
    (next_timestep cfg s u).linear_accel = step_accel s u ∧
    pos3 (next_timestep cfg s u).pose i =
      (clamp_axis (pos3 s.pose i + s.v i * dt + 0.5 * step_accel s u i * dt * dt)
        (lower_bounds i) (upper_bounds i)).1 ∧
    ang3 (next_timestep cfg s u).pose i =
      pymod (ang3 s.pose i + s.angular_v i * dt + 0.5 * step_angular_accel s u i * dt * dt
        + 2 * π) (2 * π) ∧
    (next_timestep cfg s u).angular_v i = s.angular_v i + step_angular_accel s u i * dt := by
  refine ⟨rfl, rfl, rfl, ?_, ?_, rfl⟩
  · rw [next_pos3]
    exact rfl
  · rw [next_ang3]
    exact rfl

/-- C4 counterexample: with a configured initial pose whose roll angle is
7 radians, the angle stored by `reset` is 7, which is not in `[0, 2*pi)`. -/
theorem c4_reset_angle_counterexample :
    ¬ (0 ≤ ang3 (reset cfg_angle7).pose 0 ∧ ang3 (reset cfg_angle7).pose 0 < 2 * π) := by
  intro h
  have h7 : ang3 (reset cfg_angle7).pose 0 = 7 := rfl
  rw [h7] at h
  have hpi := Real.pi_lt_d2
  linarith [h.2]

/-- C4 amended: every orientation angle lies in `[0, 2*pi)` after any
`next_timestep` call, while `reset` copies the configured initial angles
verbatim (so they lie in `[0, 2*pi)` only when the configuration's do). -/
theorem c4_angles_wrapped_amended :
    (∀ (cfg : Config) (s : State) (u : Fin 4 → ℝ) (i : Fin 3),
      0 ≤ ang3 (next_timestep cfg s u).pose i ∧
      ang3 (next_timestep cfg s u).pose i < 2 * π) ∧
    (∀ (cfg : Config) (i : Fin 3), ang3 (reset cfg).pose i = ang3 cfg.init_pose i) := by
  constructor
  · intro cfg s u i
    rw [next_ang3]
    exact ⟨pymod_nonneg (raw_angles s u i + 2 * π) Real.two_pi_pos,
           pymod_lt (raw_angles s u i + 2 * π) Real.two_pi_pos⟩
  · intro cfg i
    rfl

/-- C8 counterexample: a 5-element rotor-speed command is not rejected —
the call returns normally and the state is mutated (time advances). -/
theorem c8_no_input_validation_counterexample :
    (next_timestep_list default_config (reset default_config) [0, 0, 0, 0, 0]).isOk = true ∧
    post_state (next_timestep_list default_config (reset default_config) [0, 0, 0, 0, 0]) ≠
      reset default_config := by
  have h4 : 4 ≤ ([0, 0, 0, 0, 0] : List ℝ).length := by norm_num
  have heq : next_timestep_list default_config (reset default_config) [0, 0, 0, 0, 0] =
      Except.ok { next_timestep default_config (reset default_config)
          (fun i => ([0, 0, 0, 0, 0] : List ℝ).get ⟨i.1, lt_of_lt_of_le i.2 h4⟩) with
        rotor_speeds := [0, 0, 0, 0, 0] } := by
    simp only [next_timestep_list]
    rw [dif_pos h4]
  refine ⟨by rw [heq]; rfl, ?_⟩
  rw [heq]
  intro hcon
  have ht : (0 : ℝ) + dt = 0 := congrArg State.time hcon
  norm_num [dt] at ht

/-- C8 amended: `next_timestep` performs no length validation: any command
with at least 4 elements is accepted (extra elements ignored by the physics
but stored verbatim), and a shorter command raises IndexError only after
`rotor_speeds` and `prop_wind_speed` have already been overwritten. -/
theorem c8_no_input_validation_amended :
    (∀ (cfg : Config) (s : State) (u : List ℝ),
      4 ≤ u.length → (next_timestep_list cfg s u).isOk = true) ∧
    (∀ (cfg : Config) (s : State) (u : List ℝ),
      u.length < 4 →
        next_timestep_list cfg s u =
          Except.error { s with rotor_speeds := u,
                                prop_wind_speed := calc_prop_wind_speed s }) := by
  constructor
  · intro cfg s u h
    simp only [next_timestep_list]
    rw [dif_pos h]
    rfl
  · intro cfg s u h
    simp only [next_timestep_list]
    rw [dif_neg (by omega : ¬ 4 ≤ u.length)]
    rfl

/-- Witness for the amended C8 at concrete commands of lengths 4 and 3. -/
theorem c8_no_input_validation_amended_witness :
    (4 ≤ ([0, 0, 0, 0] : List ℝ).length) ∧
    (next_timestep_list default_config (reset default_config) [0, 0, 0, 0]).isOk = true ∧
    (([0, 0, 0] : List ℝ).length < 4) ∧
    next_timestep_list default_config (reset default_config) [0, 0, 0] =
      Except.error { reset default_config with
                       rotor_speeds := [0, 0, 0],
                       prop_wind_speed := calc_prop_wind_speed (reset default_config) } :=
  ⟨by norm_num, c8_no_input_validation_amended.1 _ _ _ (by norm_num), by norm_num,
   c8_no_input_validation_amended.2 _ _ _ (by norm_num)⟩

end
